import Mathlib

/-!
Shallow embedding of `src/rust/src/lib.rs` from the attestation-photo-mobile
repository, together with proofs of the spec claims about it.

Modelling conventions:
* Rust `u8` byte buffers become `List Nat` (every real byte is `< 256`; no
  modelled operation depends on the bound except where noted).
* Fallible Rust functions returning `Result` become `Except`.
* Rust slice indexing/slicing can panic; in `der_to_p1363_es256` every slice
  operation is modelled through `Option`-valued helpers (`slice_from`,
  `slice_to`, `slice_range`), so `none` represents a panic.  Totality of the
  codec (claim about panic freedom) is then a real theorem.
* External crates are not part of this repository's source and are abstracted:
  SHA-256 (`sha2` crate) and JSON parsing (`serde_json::from_str`) are taken
  as function parameters; the c2pa manifest embedder (`c2pa::Builder`) and the
  caller-supplied hardware signing capability are records of function
  parameters.  `hex::encode` is small enough to model concretely.
* `f64` coordinates are modelled as exact rationals `ℚ`; fixed-point
  3-decimal formatting rounds half up (no exercised input is a tie).
* Rust `serde_json` object-key ordering is modelled as insertion order with
  replace-on-duplicate (`set_assoc`); no claim depends on key ordering.
* The thread-local error-detail side channel (`set_error_detail` /
  `take_error_detail`) is diagnostic text outside every claim's statement and
  is not modelled.
-/

set_option maxHeartbeats 1000000

/-- Hexadecimal digit character (lowercase), as produced by the `hex` crate. -/
def hexChar (n : Nat) : Char :=
  if n < 10 then Char.ofNat (48 + n) else Char.ofNat (87 + n)

/-- Model of `hex::encode`: lowercase hex of a byte buffer, two digits per
byte (`b / 16 % 16` keeps the high nibble in range; real bytes are `< 256`). -/
def hexEncode (bytes : List Nat) : String :=
  String.mk (bytes.flatMap fun b => [hexChar (b / 16 % 16), hexChar (b % 16)])

/-- JSON values as built by `serde_json::json!` in the source.  Only strings,
arrays and objects occur in the manifests this repository builds. -/
inductive Json where
  | str : String → Json
  | arr : List Json → Json
  | obj : List (String × Json) → Json

/-- Insert-or-replace on an association list, modelling `serde_json` object
index-assignment (`value[key] = v`).  All keys inserted by the source are
fresh, so in practice this appends. -/
def set_assoc (kvs : List (String × Json)) (k : String) (v : Json) :
    List (String × Json) :=
  match kvs with
  | [] => [(k, v)]
  | (k0, v0) :: rest =>
    if k0 = k then (k, v) :: rest else (k0, v0) :: set_assoc rest k v

/-- Model of `serde_json` object index-assignment on a JSON value.  The
source only ever applies it to objects. -/
def Json.setKey : Json → String → Json → Json
  | Json.obj kvs, k, v => Json.obj (set_assoc kvs k v)
  | j, _, _ => j

/-- Lookup of an object field in a JSON value. -/
def json_lookup : Json → String → Option Json
  | Json.obj kvs, k => (kvs.find? (fun kv => kv.1 = k)).map (fun kv => kv.2)
  | _, _ => none

/-- Escape of one character inside a JSON string literal, as `serde_json`
serialization does. -/
def escape_char (c : Char) : String :=
  if c = '"' then "\\\""
  else if c = '\\' then "\\\\"
  else if c = '\n' then "\\n"
  else if c = '\r' then "\\r"
  else if c = '\t' then "\\t"
  else if c.toNat < 0x20 then
    "\\u00" ++ String.mk [hexChar (c.toNat / 16 % 16), hexChar (c.toNat % 16)]
  else String.singleton c

/-- Escape of a whole string for JSON serialization. -/
def escape_string (s : String) : String :=
  String.join (s.data.map escape_char)

/-- Quoted JSON string literal. -/
def quote_json (s : String) : String :=
  "\"" ++ escape_string s ++ "\""

mutual

/-- Compact JSON serialization, modelling `serde_json::Value::to_string`. -/
def Json.serialize : Json → String
  | Json.str s => quote_json s
  | Json.arr xs => "[" ++ serialize_elems xs ++ "]"
  | Json.obj kvs => "\x7b" ++ serialize_fields kvs ++ "\x7d"

/-- Comma-joined serialization of JSON array elements. -/
def serialize_elems : List Json → String
  | [] => ""
  | [x] => Json.serialize x
  | x :: y :: rest => Json.serialize x ++ "," ++ serialize_elems (y :: rest)

/-- Comma-joined serialization of JSON object fields. -/
def serialize_fields : List (String × Json) → String
  | [] => ""
  | [(k, v)] => quote_json k ++ ":" ++ Json.serialize v
  | (k, v) :: y :: rest =>
    quote_json k ++ ":" ++ Json.serialize v ++ "," ++ serialize_fields (y :: rest)

end

/-! ## Data types of the source (`lib.rs` lines 44-74) -/

/-- Result of `hash_frame_bytes` (`AtomicHashResult` in the source). -/
structure AtomicHashResult where
  sha256_hex : String

/-- Result of `build_c2pa_placeholder` (`AtomicSignedArtifact`). -/
structure AtomicSignedArtifact where
  jpg_bytes : List Nat
  manifest_json : String

/-- Result of `build_and_sign_c2pa` (`C2paSignedPhoto`). -/
structure C2paSignedPhoto where
  signed_jpeg : List Nat
  manifest_json : String
  asset_hash_hex : String

/-- Capture metadata input (`CaptureContext`); `f64` coordinates are
modelled as `ℚ`. -/
structure CaptureContext where
  app_name : String
  device_model : String
  os_version : String
  captured_at_iso8601 : String
  trust_level : String
  nonce : Option String
  latitude : Option ℚ
  longitude : Option ℚ

/-- Error taxonomy of the pipeline (`AttestationError`). -/
inductive AttestationError where
  | SigningFailed
  | ManifestBuildFailed
  | CertificateError
  | JpegEmbedFailed
  | JpegValidationFailed
deriving DecidableEq

/-- Errors raised by the caller-supplied hardware capability (`SignerError`). -/
inductive SignerError where
  | HardwareUnavailable
  | KeyNotFound
  | SignatureOperationFailed
  | CertificateExportFailed
deriving DecidableEq

/-- Display text of a `SignerError` (its `Display` impl in the source). -/
def signer_error_message : SignerError → String
  | SignerError.HardwareUnavailable => "Hardware unavailable"
  | SignerError.KeyNotFound => "Key not found"
  | SignerError.SignatureOperationFailed => "Signature operation failed"
  | SignerError.CertificateExportFailed => "Certificate export failed"

/-- Model of `c2pa::Error` restricted to what the source inspects: the
`BadParam` class versus every other error. -/
inductive C2paError where
  | badParam : String → C2paError
  | other : String → C2paError

/-- Model of `c2pa::SigningAlg`; the adapter always answers `Es256`. -/
inductive SigningAlg where
  | es256
deriving DecidableEq

/-! ## GeoFormatter (`decimal_to_exif_dms`, lib.rs lines 195-207) -/

/-- Three-decimal zero-padded rendering of a number below 1000. -/
def pad3 (n : Nat) : String :=
  if n < 10 then "00" ++ toString n
  else if n < 100 then "0" ++ toString n
  else toString n

/-- Fixed-point formatting with three decimals (Rust `{:.3}` on a
non-negative value), rounding half up on the exact rational. -/
def format_fixed3 (q : ℚ) : String :=
  let m : Nat := (⌊q * 1000 + 1 / 2⌋).toNat
  toString (m / 1000) ++ "." ++ pad3 (m % 1000)

/-- Hemisphere letter of `decimal_to_exif_dms` (`degrees >= 0.0` picks N/E). -/
def dms_suffix (degrees : ℚ) (is_latitude : Bool) : Char :=
  if is_latitude then (if 0 ≤ degrees then 'N' else 'S')
  else if 0 ≤ degrees then 'E' else 'W'

/-- Numeric part of `decimal_to_exif_dms`: whole degrees, a comma, then
decimal minutes with three decimals.  The `as u32` cast of the source
saturates, hence the `min` with `2 ^ 32 - 1`. -/
def dms_numeric (degrees : ℚ) : String :=
  let a := |degrees|
  let d : Nat := min (⌊a⌋).toNat (2 ^ 32 - 1)
  let minutes := (a - (d : ℚ)) * 60
  toString d ++ "," ++ format_fixed3 minutes

/-- Model of `decimal_to_exif_dms`: decimal degrees to an EXIF DMS string
such as `"39,21.102N"`. -/
def decimal_to_exif_dms (degrees : ℚ) (is_latitude : Bool) : String :=
  dms_numeric degrees ++ String.singleton (dms_suffix degrees is_latitude)

/-! ## SignatureCodec (lib.rs lines 212-298) -/

/-- Message built by `int_to_fixed` for an oversized integer
(`format!("integer too large: {} bytes, expected ≤ {}", ..)`). -/
def int_too_large_msg (len size : Nat) : String :=
  "integer too large: " ++ toString len ++ " bytes, expected ≤ " ++ toString size

/-- Rust slice `&l[a..]`; `none` models the panic when `a` exceeds the
length. -/
def slice_from (l : List Nat) (a : Nat) : Option (List Nat) :=
  if a ≤ l.length then some (l.drop a) else none

/-- Rust slice `&l[..b]`; `none` models the panic when `b` exceeds the
length. -/
def slice_to (l : List Nat) (b : Nat) : Option (List Nat) :=
  if b ≤ l.length then some (l.take b) else none

/-- Rust slice `&l[a..b]`; `none` models the panic when the range is not in
bounds. -/
def slice_range (l : List Nat) (a b : Nat) : Option (List Nat) :=
  if a ≤ b ∧ b ≤ l.length then some ((l.drop a).take (b - a)) else none

/-- Model of `parse_der_length`: DER length field, short form below `0x80`,
long form with one (`0x81`) or two (`0x82`) length bytes; anything longer is
unsupported.  Returns `(length_value, bytes_consumed)`. -/
def parse_der_length : List Nat → Except String (Nat × Nat)
  | [] => Except.error "empty DER length"
  | b0 :: rest =>
    if b0 < 0x80 then Except.ok (b0, 1)
    else if b0 = 0x81 then
      match rest with
      | [] => Except.error "truncated DER length"
      | b1 :: _ => Except.ok (b1, 2)
    else if b0 = 0x82 then
      match rest with
      | b1 :: b2 :: _ => Except.ok ((b1 <<< 8) ||| b2, 3)
      | _ => Except.error "truncated DER length"
    else Except.error "unsupported DER length encoding"

/-- Leading-zero stripping of `int_to_fixed` (an all-zero integer becomes
the single byte `0`). -/
def strip_leading_zeros (bytes : List Nat) : List Nat :=
  match bytes.dropWhile (fun b => b = 0) with
  | [] => [0]
  | l => l

/-- Model of `int_to_fixed`: strip leading `0x00` padding and left-pad to
`size` bytes, rejecting integers wider than `size`. -/
def int_to_fixed (bytes : List Nat) (size : Nat) : Except String (List Nat) :=
  let stripped := strip_leading_zeros bytes
  if size < stripped.length then
    Except.error (int_too_large_msg stripped.length size)
  else
    Except.ok (List.replicate (size - stripped.length) 0 ++ stripped)

/-- Model of `der_to_p1363_es256`: parse `SEQUENCE { INTEGER r, INTEGER s }`
and emit `r` and `s` each left-padded to 32 bytes.  The outer `Option` layer
records the Rust panic possibility of every slice operation (`none` = panic);
the inner `Except` is the function's own `Result`. -/
def der_to_p1363_es256 (der : List Nat) : Option (Except String (List Nat)) :=
  if der.length < 8 ∨ der.headD 0 ≠ 0x30 then
    some (Except.error "not a DER SEQUENCE")
  else
    match slice_from der 1 with
    | none => none
    | some tail1 =>
      match parse_der_length tail1 with
      | Except.error e => some (Except.error e)
      | Except.ok (seq_len, offset) =>
        match slice_from der (1 + offset) with
        | none => none
        | some seq_body0 =>
          if seq_body0.length < seq_len then
            some (Except.error "DER SEQUENCE truncated")
          else
            match slice_to seq_body0 seq_len with
            | none => none
            | some seq_body =>
              if seq_body.isEmpty ∨ seq_body.headD 0 ≠ 0x02 then
                some (Except.error "expected INTEGER tag for r")
              else
                match slice_from seq_body 1 with
                | none => none
                | some tail_r =>
                  match parse_der_length tail_r with
                  | Except.error e => some (Except.error e)
                  | Except.ok (r_len, r_off) =>
                    let r_start := 1 + r_off
                    if seq_body.length < r_start + r_len then
                      some (Except.error "r INTEGER truncated")
                    else
                      match slice_range seq_body r_start (r_start + r_len) with
                      | none => none
                      | some r_bytes =>
                        let s_tag_pos := r_start + r_len
                        if seq_body.length ≤ s_tag_pos ∨
                            seq_body.getD s_tag_pos 0 ≠ 0x02 then
                          some (Except.error "expected INTEGER tag for s")
                        else
                          match slice_from seq_body (s_tag_pos + 1) with
                          | none => none
                          | some tail_s =>
                            match parse_der_length tail_s with
                            | Except.error e => some (Except.error e)
                            | Except.ok (s_len, s_off) =>
                              let s_start := s_tag_pos + 1 + s_off
                              if seq_body.length < s_start + s_len then
                                some (Except.error "s INTEGER truncated")
                              else
                                match slice_range seq_body s_start (s_start + s_len) with
                                | none => none
                                | some s_bytes =>
                                  match int_to_fixed r_bytes 32 with
                                  | Except.error e => some (Except.error e)
                                  | Except.ok r =>
                                    match int_to_fixed s_bytes 32 with
                                    | Except.error e => some (Except.error e)
                                    | Except.ok s => some (Except.ok (r ++ s))

/-- Panic-free view of the codec, used by the adapter; the default branch is
unreachable by the totality theorem proved below. -/
def der_to_p1363_run (der : List Nat) : Except String (List Nat) :=
  (der_to_p1363_es256 der).getD (Except.error "unreachable")

/-! ## Hashing (lib.rs lines 301-307, 410-412) -/

/-- Model of `hash_bytes`: the SHA-256 implementation comes from the external
`sha2` crate and is abstracted as the parameter `sha`; the source hex-encodes
its digest. -/
def hash_bytes (sha : List Nat → List Nat) (data : List Nat) : AtomicHashResult :=
  { sha256_hex := hexEncode (sha data) }

/-- Model of the public `hash_frame_bytes`, which delegates to `hash_bytes`. -/
def hash_frame_bytes (sha : List Nat → List Nat) (frame_bytes : List Nat) :
    AtomicHashResult :=
  hash_bytes sha frame_bytes

/-! ## ManifestBuilder (`build_manifest_definition`, lib.rs lines 313-404) -/

/-- Modelled from the spec: `env!("CARGO_PKG_VERSION")` is a compile-time
constant read from the crate manifest, which is not under `src/`; its concrete
value is irrelevant to every claim. -/
def cargo_pkg_version : String := "0.1.0"

/-- Manufacturer extraction: first whitespace-delimited token of the device
model (`split_whitespace().next().unwrap_or(..)`). -/
def device_make (device_model : String) : String :=
  match (device_model.split Char.isWhitespace).filter (fun s => s ≠ "") with
  | [] => device_model
  | m :: _ => m

/-- Fields of the EXIF assertion data that are always present. -/
def exif_base_fields (c : CaptureContext) : List (String × Json) :=
  [("@context", Json.obj [("exif", Json.str "http://ns.adobe.com/exif/1.0/")]),
   ("exif:Make", Json.str (device_make c.device_model)),
   ("exif:Model", Json.str c.device_model),
   ("exif:DateTimeOriginal", Json.str c.captured_at_iso8601)]

/-- The four GPS-extended EXIF fields added when both coordinates are
present. -/
def gps_fields (lat lon : ℚ) (ts : String) : List (String × Json) :=
  [("exif:GPSVersionID", Json.str "2.2.0.0"),
   ("exif:GPSLatitude", Json.str (decimal_to_exif_dms lat true)),
   ("exif:GPSLongitude", Json.str (decimal_to_exif_dms lon false)),
   ("exif:GPSTimeStamp", Json.str ts)]

/-- EXIF assertion data: camera info always, GPS fields added by four
index-assignments when both coordinates are present. -/
def exif_data (c : CaptureContext) : Json :=
  let base := Json.obj (exif_base_fields c)
  match c.latitude, c.longitude with
  | some lat, some lon =>
    ((((base.setKey "exif:GPSVersionID" (Json.str "2.2.0.0")).setKey
        "exif:GPSLatitude" (Json.str (decimal_to_exif_dms lat true))).setKey
        "exif:GPSLongitude" (Json.str (decimal_to_exif_dms lon false))).setKey
        "exif:GPSTimeStamp" (Json.str c.captured_at_iso8601))
  | _, _ => base

/-- The `c2pa.actions` assertion. -/
def actions_assertion (c : CaptureContext) : Json :=
  Json.obj [("label", Json.str "c2pa.actions"),
    ("data", Json.obj [("actions", Json.arr [Json.obj
      [("action", Json.str "c2pa.created"),
       ("digitalSourceType",
         Json.str "http://cv.iptc.org/newscodes/digitalsourcetype/digitalCapture"),
       ("softwareAgent", Json.obj [("name", Json.str c.app_name),
         ("version", Json.str cargo_pkg_version)])]])])]

/-- The `stds.schema-org.CreativeWork` assertion. -/
def creative_work_assertion (c : CaptureContext) : Json :=
  Json.obj [("label", Json.str "stds.schema-org.CreativeWork"),
    ("data", Json.obj [("@context", Json.str "https://schema.org"),
      ("@type", Json.str "CreativeWork"),
      ("author", Json.arr [Json.obj [("@type", Json.str "Organization"),
        ("name", Json.str c.app_name)]])])]

/-- The `stds.exif` assertion. -/
def exif_assertion (c : CaptureContext) : Json :=
  Json.obj [("label", Json.str "stds.exif"), ("data", exif_data c)]

/-- The `attestation.device` assertion. -/
def device_assertion (c : CaptureContext) : Json :=
  Json.obj [("label", Json.str "attestation.device"),
    ("data", Json.obj [("deviceModel", Json.str c.device_model),
      ("osVersion", Json.str c.os_version),
      ("trustLevel", Json.str c.trust_level)])]

/-- The `attestation.capture_time` assertion. -/
def capture_time_assertion (c : CaptureContext) : Json :=
  Json.obj [("label", Json.str "attestation.capture_time"),
    ("data", Json.obj [("timestamp", Json.str c.captured_at_iso8601)])]

/-- The conditional `attestation.trust` assertion, pushed only when a nonce
is supplied. -/
def trust_assertion (trust_level nonce : String) : Json :=
  Json.obj [("label", Json.str "attestation.trust"),
    ("data", Json.obj [("trustLevel", Json.str trust_level),
      ("nonce", Json.str nonce)])]

/-- Assertion list of `build_manifest_definition`, in source order: the five
fixed assertions, then the trust assertion iff a nonce is present. -/
def manifest_assertions (c : CaptureContext) : List Json :=
  [actions_assertion c, creative_work_assertion c, exif_assertion c,
   device_assertion c, capture_time_assertion c] ++
    (match c.nonce with
     | some nonce => [trust_assertion c.trust_level nonce]
     | none => [])

/-- The manifest definition JSON value built by `build_manifest_definition`. -/
def manifest_value (c : CaptureContext) : Json :=
  Json.obj [("title", Json.str ("Attested Photo " ++ c.captured_at_iso8601)),
    ("format", Json.str "image/jpeg"),
    ("claim_generator_info", Json.arr [Json.obj
      [("name", Json.str c.app_name),
       ("version", Json.str cargo_pkg_version)]]),
    ("assertions", Json.arr (manifest_assertions c))]

/-- Model of `build_manifest_definition`: the serialized manifest JSON
string. -/
def build_manifest_definition (c : CaptureContext) : String :=
  (manifest_value c).serialize

/-! ## SignerAdapter (lib.rs lines 147-188) -/

/-- Caller-supplied hardware signing capability (the `HardwareSigner` trait):
a record of its two fallible operations. -/
structure HardwareSigner where
  sign : List Nat → Except SignerError (List Nat)
  certificate_der : Except SignerError (List Nat)

/-- Model of `HardwareSignerAdapter`: the boxed capability plus the
certificate cached at construction. -/
structure HardwareSignerAdapter where
  inner : HardwareSigner
  cached_cert : List Nat

/-- Model of `HardwareSignerAdapter::new`: fetch the certificate once; a
fetch failure becomes `CertificateError`. -/
def HardwareSignerAdapter.new (signer : HardwareSigner) :
    Except AttestationError HardwareSignerAdapter :=
  match signer.certificate_der with
  | Except.error _ => Except.error AttestationError.CertificateError
  | Except.ok cached_cert =>
    Except.ok { inner := signer, cached_cert := cached_cert }

/-- Model of the adapter's `c2pa::Signer::sign`: delegate to the hardware
capability, then convert the DER signature to P1363; both failure modes
surface as `BadParam`. -/
def HardwareSignerAdapter.sign (a : HardwareSignerAdapter) (data : List Nat) :
    Except C2paError (List Nat) :=
  match a.inner.sign data with
  | Except.error e =>
    Except.error (C2paError.badParam
      ("Hardware signer error: " ++ signer_error_message e))
  | Except.ok der_sig =>
    match der_to_p1363_run der_sig with
    | Except.error e =>
      Except.error (C2paError.badParam ("DER→P1363 conversion error: " ++ e))
    | Except.ok sig => Except.ok sig

/-- Model of the adapter's `c2pa::Signer::alg`: fixed ES256. -/
def HardwareSignerAdapter.alg (_ : HardwareSignerAdapter) : SigningAlg :=
  SigningAlg.es256

/-- Model of the adapter's `c2pa::Signer::certs`: the single cached
certificate. -/
def HardwareSignerAdapter.certs (a : HardwareSignerAdapter) :
    Except C2paError (List (List Nat)) :=
  Except.ok [a.cached_cert]

/-- Model of the adapter's `c2pa::Signer::reserve_size`: the fixed 10240-byte
budget. -/
def HardwareSignerAdapter.reserve_size (_ : HardwareSignerAdapter) : Nat :=
  10240

/-- The capability set a `c2pa::Signer` exposes to the embedder. -/
structure SignerCaps where
  sign : List Nat → Except C2paError (List Nat)
  alg : SigningAlg
  certs : Except C2paError (List (List Nat))
  reserve_size : Nat

/-- Packaging of the adapter's four methods for the external embedder. -/
def HardwareSignerAdapter.toCaps (a : HardwareSignerAdapter) : SignerCaps :=
  { sign := a.sign, alg := a.alg, certs := a.certs,
    reserve_size := a.reserve_size }

/-- External manifest embedder (the out-of-scope `c2pa` crate): `from_json`
parses/validates a manifest JSON into a builder, `sign` embeds and signs.
Both are black boxes, so they are parameters of the orchestrator model. -/
structure ManifestEmbedder where
  from_json : String → Except C2paError String
  sign : String → SignerCaps → String → List Nat → Except C2paError (List Nat)

/-! ## Legacy placeholder path (lib.rs lines 414-432) -/

/-- The flat placeholder manifest value; `serde_json::from_str` on the
caller's metadata is abstracted as the parameter `parse_json`, with the
source's fallback to the empty object when parsing fails. -/
def placeholder_manifest (sha : List Nat → List Nat)
    (parse_json : String → Option Json) (jpg_bytes : List Nat)
    (signature_base64 metadata_json : String) : Json :=
  Json.obj [("type", Json.str "c2pa-placeholder"),
    ("alg", Json.str "ECDSA_P256_SHA256"),
    ("sha256", Json.str (hash_bytes sha jpg_bytes).sha256_hex),
    ("signature", Json.str signature_base64),
    ("metadata", (parse_json metadata_json).getD (Json.obj []))]

/-- Model of `build_c2pa_placeholder`: wrap signature and metadata into a
flat manifest, return the JPEG bytes unchanged; it is total (the Rust
function returns a plain struct, not a `Result`). -/
def build_c2pa_placeholder (sha : List Nat → List Nat)
    (parse_json : String → Option Json) (jpg_bytes : List Nat)
    (signature_base64 metadata_json : String) : AtomicSignedArtifact :=
  { jpg_bytes := jpg_bytes,
    manifest_json :=
      (placeholder_manifest sha parse_json jpg_bytes signature_base64
        metadata_json).serialize }

/-! ## Orchestrator (`build_and_sign_c2pa`, lib.rs lines 438-501) -/

/-- Model of `build_and_sign_c2pa`: validate the JPEG SOI marker, construct
the adapter, hash the original bytes, build the manifest, then drive the
external embedder; embedder failures are classified by `BadParam` versus
everything else.  `sha` abstracts the external SHA-256; `embedder` abstracts
the external c2pa crate. -/
def build_and_sign_c2pa (sha : List Nat → List Nat)
    (embedder : ManifestEmbedder) (jpeg_bytes : List Nat)
    (context : CaptureContext) (signer : HardwareSigner) :
    Except AttestationError C2paSignedPhoto :=
  if jpeg_bytes.length < 2 ∨ jpeg_bytes[0]? ≠ some 0xFF ∨
      jpeg_bytes[1]? ≠ some 0xD8 then
    Except.error AttestationError.JpegValidationFailed
  else
    match HardwareSignerAdapter.new signer with
    | Except.error e => Except.error e
    | Except.ok adapter =>
      let asset_hash := hash_bytes sha jpeg_bytes
      let manifest_json := build_manifest_definition context
      match embedder.from_json manifest_json with
      | Except.error _ => Except.error AttestationError.ManifestBuildFailed
      | Except.ok builder =>
        match embedder.sign builder adapter.toCaps "image/jpeg" jpeg_bytes with
        | Except.error (C2paError.badParam _) =>
          Except.error AttestationError.SigningFailed
        | Except.error (C2paError.other _) =>
          Except.error AttestationError.JpegEmbedFailed
        | Except.ok signed =>
          Except.ok { signed_jpeg := signed, manifest_json := manifest_json,
                      asset_hash_hex := asset_hash.sha256_hex }

/-! ## Spec-side DER encoder (for the round-trip claim) -/

/-- Minimal big-endian byte rendering of a natural number (`[]` for zero). -/
def natToBE (n : Nat) : List Nat :=
  if n = 0 then [] else natToBE (n / 256) ++ [n % 256]
decreasing_by exact Nat.div_lt_self (Nat.pos_of_ne_zero (by assumption)) (by norm_num)

/-- Minimal big-endian bytes with the DER convention for zero (one `0x00`
byte). -/
def minBytes (n : Nat) : List Nat :=
  if n = 0 then [0] else natToBE n

/-- Big-endian rendering of a natural number on exactly `k` bytes. -/
def natToBEFixed : Nat → Nat → List Nat
  | _, 0 => []
  | n, k + 1 => natToBEFixed (n / 256) k ++ [n % 256]

/-- Modelled from the spec: content bytes of a DER INTEGER — minimal
big-endian with a leading `0x00` inserted when the top bit is set. -/
def der_int_content (n : Nat) : List Nat :=
  let b := minBytes n
  if 0x80 ≤ b.headD 0 then 0 :: b else b

/-- Raw `SEQUENCE { INTEGER, INTEGER }` layout with short-form lengths, out
of arbitrary content byte lists. -/
def mk_der_shape (rc sc : List Nat) : List Nat :=
  0x30 :: (4 + rc.length + sc.length) :: 0x02 :: rc.length ::
    (rc ++ 0x02 :: sc.length :: sc)

/-- Modelled from the spec: DER encoding of an ECDSA signature `(r, s)`
(for values below `2 ^ 256` all length fields are short form). -/
def spec_der_encode_sig (r s : Nat) : List Nat :=
  mk_der_shape (der_int_content r) (der_int_content s)

/-! ## Theorems for the spec claims -/

/-- C8: GeoFormatter maps `(39.3517, latitude)` to `"39,21.102N"` and
`(-73.9857, longitude)` to `"73,59.142W"`; for every input, flipping the sign
of the degrees changes only the hemisphere letter (N/S for latitude, E/W for
longitude, non-negative treated as N/E) and leaves the numeric part
unchanged. -/
theorem c8_geoformatter_dms :
    decimal_to_exif_dms (393517/10000 : ℚ) true = "39,21.102N" ∧
    decimal_to_exif_dms (-739857/10000 : ℚ) false = "73,59.142W" ∧
    ∀ (q : ℚ) (b : Bool),
      dms_numeric (-q) = dms_numeric q ∧
      decimal_to_exif_dms q b =
        dms_numeric q ++ String.singleton (dms_suffix q b) ∧
      dms_suffix q true = (if 0 ≤ q then 'N' else 'S') ∧
      dms_suffix q false = (if 0 ≤ q then 'E' else 'W') := by
  refine ⟨?_, ?_, ?_⟩
  · simp only [decimal_to_exif_dms, dms_numeric, dms_suffix, format_fixed3]
    rw [abs_of_nonneg (by norm_num)]
    rw [show ⌊(393517/10000 : ℚ)⌋ = 39 from by norm_num]
    rw [show (Int.toNat 39 ⊓ (2^32-1)) = 39 from by decide]
    rw [show ((393517/10000 : ℚ) - ((39:ℕ):ℚ)) * 60 * 1000 + 1/2 = 42205/2
      from by push_cast; norm_num]
    rw [show ⌊(42205/2 : ℚ)⌋ = (21102:ℤ) from by norm_num]
    rw [if_pos (show (0:ℚ) ≤ 393517/10000 from by norm_num)]
    decide
  · simp only [decimal_to_exif_dms, dms_numeric, dms_suffix, format_fixed3]
    rw [abs_of_nonpos (by norm_num)]
    rw [show -(-739857/10000 : ℚ) = 739857/10000 from by norm_num]
    rw [show ⌊(739857/10000 : ℚ)⌋ = 73 from by norm_num]
    rw [show (Int.toNat 73 ⊓ (2^32-1)) = 73 from by decide]
    rw [show ((739857/10000 : ℚ) - ((73:ℕ):ℚ)) * 60 * 1000 + 1/2 = 118285/2
      from by push_cast; norm_num]
    rw [show ⌊(118285/2 : ℚ)⌋ = (59142:ℤ) from by norm_num]
    simp only [if_neg (show ¬ ((0:ℚ) ≤ -739857/10000) from by norm_num)]
    decide
  · intro q b
    refine ⟨?_, rfl, ?_, ?_⟩
    · simp only [dms_numeric, abs_neg]
    · simp [dms_suffix]
    · simp [dms_suffix]

/-- C1: for every JPEG input on which `build_and_sign_c2pa` succeeds, the
returned `asset_hash_hex` equals the hex-encoded SHA-256 digest of the
original, unsigned input bytes — the same `sha` applied to `jpeg_bytes`
directly — for every embedder, hence independent of any hashing the embedder
performs (the embedder is universally quantified and the hash is taken from
`hash_bytes` on the untouched input). -/
theorem c1_asset_hash_is_input_digest (sha : List Nat → List Nat)
    (embedder : ManifestEmbedder) (signer : HardwareSigner)
    (jpeg_bytes : List Nat) (context : CaptureContext)
    (photo : C2paSignedPhoto)
    (h : build_and_sign_c2pa sha embedder jpeg_bytes context signer =
      Except.ok photo) :
    photo.asset_hash_hex = hexEncode (sha jpeg_bytes) := by
  unfold build_and_sign_c2pa at h
  split at h
  · exact absurd h (by simp)
  · split at h
    · exact absurd h (by simp)
    · dsimp only at h
      split at h
      · exact absurd h (by simp)
      · split at h
        · exact absurd h (by simp)
        · exact absurd h (by simp)
        · simp only [Except.ok.injEq] at h
          rw [← h]
          rfl

/-- Identity stand-in for the abstract SHA-256 parameter in concrete runs. -/
def test_sha : List Nat → List Nat := fun l => l

/-- Embedder stub that accepts any manifest and signs to a fixed byte. -/
def test_embedder : ManifestEmbedder :=
  { from_json := fun s => Except.ok s, sign := fun _ _ _ _ => Except.ok [0] }

/-- Embedder stub that rejects every manifest JSON. -/
def test_embedder_reject_json : ManifestEmbedder :=
  { from_json := fun _ => Except.error (C2paError.other "bad json"),
    sign := fun _ _ _ _ => Except.ok [0] }

/-- Embedder stub whose sign operation fails with a bad-parameter error. -/
def test_embedder_badparam : ManifestEmbedder :=
  { from_json := fun s => Except.ok s,
    sign := fun _ _ _ _ => Except.error (C2paError.badParam "bad") }

/-- Embedder stub whose sign operation fails with a non-bad-parameter
error. -/
def test_embedder_embed_fail : ManifestEmbedder :=
  { from_json := fun s => Except.ok s,
    sign := fun _ _ _ _ => Except.error (C2paError.other "io") }

/-- Hardware capability stub that always succeeds. -/
def test_signer : HardwareSigner :=
  { sign := fun _ => Except.ok [], certificate_der := Except.ok [1] }

/-- Hardware capability stub that fails both operations deterministically. -/
def test_bad_cert_signer : HardwareSigner :=
  { sign := fun _ => Except.error SignerError.SignatureOperationFailed,
    certificate_der := Except.error SignerError.CertificateExportFailed }

/-- Capture context fixture with no nonce and no coordinates. -/
def test_context : CaptureContext :=
  { app_name := "app", device_model := "Pixel 9", os_version := "15",
    captured_at_iso8601 := "2026-01-01T00:00:00Z", trust_level := "hardware",
    nonce := none, latitude := none, longitude := none }

/-- Minimal byte buffer passing the JPEG SOI check. -/
def test_jpeg : List Nat := [0xFF, 0xD8]

/-- Witness for C1: a concrete successful run returns exactly the hex of the
digest of the input bytes. -/
theorem c1_asset_hash_is_input_digest_witness :
    ({ signed_jpeg := [0], manifest_json := build_manifest_definition test_context,
       asset_hash_hex := hexEncode (test_sha test_jpeg) } : C2paSignedPhoto).asset_hash_hex
      = hexEncode (test_sha test_jpeg) :=
  c1_asset_hash_is_input_digest test_sha test_embedder test_signer test_jpeg
    test_context _ rfl

/-- C5: for every input buffer that does not start with `0xFF 0xD8`
(including buffers shorter than 2 bytes), `build_and_sign_c2pa` returns
`JpegValidationFailed`; the result is the same for every signing capability
(and embedder), which in this pure model is what "the capability is never
invoked" means — the early return happens before the capability or the
embedder is touched. -/
theorem c5_invalid_jpeg_rejected_without_signer (sha : List Nat → List Nat)
    (embedder : ManifestEmbedder) (jpeg_bytes : List Nat)
    (context : CaptureContext) (signer signer' : HardwareSigner)
    (h : ¬ (jpeg_bytes[0]? = some 0xFF ∧ jpeg_bytes[1]? = some 0xD8)) :
    build_and_sign_c2pa sha embedder jpeg_bytes context signer =
      Except.error AttestationError.JpegValidationFailed ∧
    build_and_sign_c2pa sha embedder jpeg_bytes context signer =
      build_and_sign_c2pa sha embedder jpeg_bytes context signer' := by
  have hg : jpeg_bytes.length < 2 ∨ jpeg_bytes[0]? ≠ some 0xFF ∨
      jpeg_bytes[1]? ≠ some 0xD8 := by tauto
  constructor
  · unfold build_and_sign_c2pa
    rw [if_pos hg]
  · unfold build_and_sign_c2pa
    rw [if_pos hg, if_pos hg]

/-- Witness for C5: a buffer with a wrong first byte is rejected, and the
result does not depend on whether the capability works or fails. -/
theorem c5_invalid_jpeg_rejected_without_signer_witness :
    build_and_sign_c2pa test_sha test_embedder [0, 216] test_context
      test_signer = Except.error AttestationError.JpegValidationFailed ∧
    build_and_sign_c2pa test_sha test_embedder [0, 216] test_context
        test_signer =
      build_and_sign_c2pa test_sha test_embedder [0, 216] test_context
        test_bad_cert_signer :=
  c5_invalid_jpeg_rejected_without_signer test_sha test_embedder [0, 216]
    test_context test_signer test_bad_cert_signer (by decide)

/-- Helper: a successful SOI check means the guard of the orchestrator's
first gate is false. -/
theorem jpeg_guard_false {jpeg_bytes : List Nat}
    (h0 : jpeg_bytes[0]? = some 0xFF) (h1 : jpeg_bytes[1]? = some 0xD8) :
    ¬ (jpeg_bytes.length < 2 ∨ jpeg_bytes[0]? ≠ some 0xFF ∨
        jpeg_bytes[1]? ≠ some 0xD8) := by
  push_neg
  refine ⟨?_, h0, h1⟩
  obtain ⟨hlen, -⟩ := List.getElem?_eq_some.mp h1
  omega

/-- C6: failure classification of `build_and_sign_c2pa` on valid-JPEG input:
a failed certificate fetch yields `CertificateError`; the embedder rejecting
the manifest JSON yields `ManifestBuildFailed`; a bad-parameter-class
embedder sign error yields `SigningFailed`; any other embedder sign error
yields `JpegEmbedFailed`; and the adapter surfaces both a failed hardware
signature and a non-decodable (DER-conversion-failing) one as bad-parameter
errors.  Every failure is terminal by construction: the pipeline is a single
pass of nested matches with no retry. -/
theorem c6_error_classification :
    (∀ (sha : List Nat → List Nat) (embedder : ManifestEmbedder)
        (jpeg_bytes : List Nat) (context : CaptureContext)
        (signer : HardwareSigner) (e : SignerError),
      jpeg_bytes[0]? = some 0xFF → jpeg_bytes[1]? = some 0xD8 →
      signer.certificate_der = Except.error e →
      build_and_sign_c2pa sha embedder jpeg_bytes context signer =
        Except.error AttestationError.CertificateError) ∧
    (∀ (sha : List Nat → List Nat) (embedder : ManifestEmbedder)
        (jpeg_bytes : List Nat) (context : CaptureContext)
        (signer : HardwareSigner) (cert : List Nat) (err : C2paError),
      jpeg_bytes[0]? = some 0xFF → jpeg_bytes[1]? = some 0xD8 →
      signer.certificate_der = Except.ok cert →
      embedder.from_json (build_manifest_definition context) =
        Except.error err →
      build_and_sign_c2pa sha embedder jpeg_bytes context signer =
        Except.error AttestationError.ManifestBuildFailed) ∧
    (∀ (sha : List Nat → List Nat) (embedder : ManifestEmbedder)
        (jpeg_bytes : List Nat) (context : CaptureContext)
        (signer : HardwareSigner) (cert : List Nat) (builder msg : String),
      jpeg_bytes[0]? = some 0xFF → jpeg_bytes[1]? = some 0xD8 →
      signer.certificate_der = Except.ok cert →
      embedder.from_json (build_manifest_definition context) =
        Except.ok builder →
      embedder.sign builder
        (HardwareSignerAdapter.toCaps { inner := signer, cached_cert := cert })
        "image/jpeg" jpeg_bytes = Except.error (C2paError.badParam msg) →
      build_and_sign_c2pa sha embedder jpeg_bytes context signer =
        Except.error AttestationError.SigningFailed) ∧
    (∀ (sha : List Nat → List Nat) (embedder : ManifestEmbedder)
        (jpeg_bytes : List Nat) (context : CaptureContext)
        (signer : HardwareSigner) (cert : List Nat) (builder msg : String),
      jpeg_bytes[0]? = some 0xFF → jpeg_bytes[1]? = some 0xD8 →
      signer.certificate_der = Except.ok cert →
      embedder.from_json (build_manifest_definition context) =
        Except.ok builder →
      embedder.sign builder
        (HardwareSignerAdapter.toCaps { inner := signer, cached_cert := cert })
        "image/jpeg" jpeg_bytes = Except.error (C2paError.other msg) →
      build_and_sign_c2pa sha embedder jpeg_bytes context signer =
        Except.error AttestationError.JpegEmbedFailed) ∧
    (∀ (a : HardwareSignerAdapter) (data : List Nat) (e : SignerError),
      a.inner.sign data = Except.error e →
      a.sign data = Except.error (C2paError.badParam
        ("Hardware signer error: " ++ signer_error_message e))) ∧
    (∀ (a : HardwareSignerAdapter) (data der : List Nat) (msg : String),
      a.inner.sign data = Except.ok der →
      der_to_p1363_run der = Except.error msg →
      a.sign data = Except.error (C2paError.badParam
        ("DER→P1363 conversion error: " ++ msg))) := by
  refine ⟨?_, ?_, ?_, ?_, ?_, ?_⟩
  · intro sha embedder jpeg_bytes context signer e h0 h1 hc
    unfold build_and_sign_c2pa
    rw [if_neg (jpeg_guard_false h0 h1)]
    simp only [HardwareSignerAdapter.new, hc]
  · intro sha embedder jpeg_bytes context signer cert err h0 h1 hc hj
    unfold build_and_sign_c2pa
    rw [if_neg (jpeg_guard_false h0 h1)]
    simp only [HardwareSignerAdapter.new, hc, hj]
  · intro sha embedder jpeg_bytes context signer cert builder msg h0 h1 hc hj hs
    unfold build_and_sign_c2pa
    rw [if_neg (jpeg_guard_false h0 h1)]
    simp only [HardwareSignerAdapter.new, hc, hj, hs]
  · intro sha embedder jpeg_bytes context signer cert builder msg h0 h1 hc hj hs
    unfold build_and_sign_c2pa
    rw [if_neg (jpeg_guard_false h0 h1)]
    simp only [HardwareSignerAdapter.new, hc, hj, hs]
  · intro a data e h
    unfold HardwareSignerAdapter.sign
    simp only [h]
  · intro a data der msg h hd
    unfold HardwareSignerAdapter.sign
    simp only [h, hd]

/-- Witness for C6: concrete deterministic stubs hit each classified
failure: bad certificate, rejected manifest, bad-parameter sign failure,
other sign failure, failed hardware signature, non-decodable hardware
signature. -/
theorem c6_error_classification_witness :
    build_and_sign_c2pa test_sha test_embedder test_jpeg test_context
      test_bad_cert_signer = Except.error AttestationError.CertificateError ∧
    build_and_sign_c2pa test_sha test_embedder_reject_json test_jpeg
      test_context test_signer =
      Except.error AttestationError.ManifestBuildFailed ∧
    build_and_sign_c2pa test_sha test_embedder_badparam test_jpeg
      test_context test_signer = Except.error AttestationError.SigningFailed ∧
    build_and_sign_c2pa test_sha test_embedder_embed_fail test_jpeg
      test_context test_signer = Except.error AttestationError.JpegEmbedFailed ∧
    HardwareSignerAdapter.sign
        { inner := test_bad_cert_signer, cached_cert := [1] } [5] =
      Except.error (C2paError.badParam ("Hardware signer error: " ++
        signer_error_message SignerError.SignatureOperationFailed)) ∧
    HardwareSignerAdapter.sign { inner := test_signer, cached_cert := [1] }
        [5] =
      Except.error (C2paError.badParam
        ("DER→P1363 conversion error: " ++ "not a DER SEQUENCE")) :=
  ⟨c6_error_classification.1 test_sha test_embedder test_jpeg test_context
      test_bad_cert_signer SignerError.CertificateExportFailed rfl rfl rfl,
   c6_error_classification.2.1 test_sha test_embedder_reject_json test_jpeg
      test_context test_signer [1] (C2paError.other "bad json") rfl rfl rfl rfl,
   c6_error_classification.2.2.1 test_sha test_embedder_badparam test_jpeg
      test_context test_signer [1]
      (build_manifest_definition test_context) "bad" rfl rfl rfl rfl rfl,
   c6_error_classification.2.2.2.1 test_sha test_embedder_embed_fail test_jpeg
      test_context test_signer [1]
      (build_manifest_definition test_context) "io" rfl rfl rfl rfl rfl,
   c6_error_classification.2.2.2.2.1
      { inner := test_bad_cert_signer, cached_cert := [1] } [5]
      SignerError.SignatureOperationFailed rfl,
   c6_error_classification.2.2.2.2.2
      { inner := test_signer, cached_cert := [1] } [5] []
      "not a DER SEQUENCE" rfl rfl⟩

/-- Counterexample for C2: with no nonce and no coordinates the assertion
list of the built manifest has 5 elements, not 4 — the five required
assertions of the data model are all present. -/
theorem c2_exactly_four_assertions_counterexample :
    test_context.nonce = none ∧ test_context.latitude = none ∧
    test_context.longitude = none ∧
    (manifest_assertions test_context).length ≠ 4 :=
  ⟨rfl, rfl, rfl, by decide⟩

/-- C2 (amended): for every CaptureContext with no nonce and no coordinates,
a successful `build_and_sign_c2pa` returns exactly the built manifest JSON,
whose assertion list contains exactly 5 assertions — labelled
`c2pa.actions`, `stds.schema-org.CreativeWork`, `stds.exif`,
`attestation.device`, `attestation.capture_time`, so no trust assertion —
and whose EXIF data carries no GPS-extended fields. -/
theorem c2_manifest_without_nonce_and_gps (c : CaptureContext)
    (sha : List Nat → List Nat) (embedder : ManifestEmbedder)
    (signer : HardwareSigner) (jpeg_bytes : List Nat)
    (photo : C2paSignedPhoto)
    (h1 : c.nonce = none) (h2 : c.latitude = none) (h3 : c.longitude = none)
    (hok : build_and_sign_c2pa sha embedder jpeg_bytes c signer =
      Except.ok photo) :
    photo.manifest_json = build_manifest_definition c ∧
    (manifest_assertions c).length = 5 ∧
    (manifest_assertions c).map (fun a => json_lookup a "label") =
      [some (Json.str "c2pa.actions"),
       some (Json.str "stds.schema-org.CreativeWork"),
       some (Json.str "stds.exif"),
       some (Json.str "attestation.device"),
       some (Json.str "attestation.capture_time")] ∧
    exif_data c = Json.obj (exif_base_fields c) ∧
    json_lookup (exif_data c) "exif:GPSLatitude" = none ∧
    json_lookup (exif_data c) "exif:GPSLongitude" = none := by
  refine ⟨?_, ?_, ?_, ?_, ?_, ?_⟩
  · unfold build_and_sign_c2pa at hok
    split at hok
    · exact absurd hok (by simp)
    · split at hok
      · exact absurd hok (by simp)
      · dsimp only at hok
        split at hok
        · exact absurd hok (by simp)
        · split at hok
          · exact absurd hok (by simp)
          · exact absurd hok (by simp)
          · simp only [Except.ok.injEq] at hok
            rw [← hok]
  · unfold manifest_assertions
    rw [h1]
    rfl
  · unfold manifest_assertions
    rw [h1]
    rfl
  · unfold exif_data
    rw [h2, h3]
  · unfold exif_data
    rw [h2, h3]
    rfl
  · unfold exif_data
    rw [h2, h3]
    rfl

/-- Witness for C2 (amended): the fixture context with no nonce and no
coordinates on a concrete successful run. -/
theorem c2_manifest_without_nonce_and_gps_witness :
    ({ signed_jpeg := [0],
       manifest_json := build_manifest_definition test_context,
       asset_hash_hex := hexEncode (test_sha test_jpeg) } :
        C2paSignedPhoto).manifest_json =
      build_manifest_definition test_context ∧
    (manifest_assertions test_context).length = 5 ∧
    (manifest_assertions test_context).map (fun a => json_lookup a "label") =
      [some (Json.str "c2pa.actions"),
       some (Json.str "stds.schema-org.CreativeWork"),
       some (Json.str "stds.exif"),
       some (Json.str "attestation.device"),
       some (Json.str "attestation.capture_time")] ∧
    exif_data test_context = Json.obj (exif_base_fields test_context) ∧
    json_lookup (exif_data test_context) "exif:GPSLatitude" = none ∧
    json_lookup (exif_data test_context) "exif:GPSLongitude" = none :=
  c2_manifest_without_nonce_and_gps test_context test_sha test_embedder
    test_signer test_jpeg _ rfl rfl rfl rfl

/-- C7: the manifest builder is deterministic (a pure function of the
context); adding a nonce appends exactly the trust assertion and changes
nothing else; adding the coordinate pair changes exactly the EXIF
assertion's data, appending the four GPS fields, with all other assertions
(and the conditional trust tail) unchanged. -/
theorem c7_manifest_builder_determinism_and_toggles :
    (∀ c c' : CaptureContext, c = c' →
      build_manifest_definition c = build_manifest_definition c') ∧
    (∀ (c : CaptureContext) (n : String),
      manifest_assertions { c with nonce := some n } =
        manifest_assertions { c with nonce := none } ++
          [trust_assertion c.trust_level n]) ∧
    (∀ (c : CaptureContext) (lat lon : ℚ),
      manifest_assertions { c with latitude := some lat, longitude := some lon } =
        [actions_assertion c, creative_work_assertion c,
         Json.obj [("label", Json.str "stds.exif"),
           ("data", Json.obj (exif_base_fields c ++
             gps_fields lat lon c.captured_at_iso8601))],
         device_assertion c, capture_time_assertion c] ++
          (match c.nonce with
           | some nonce => [trust_assertion c.trust_level nonce]
           | none => []) ∧
      manifest_assertions { c with latitude := none, longitude := none } =
        [actions_assertion c, creative_work_assertion c,
         Json.obj [("label", Json.str "stds.exif"),
           ("data", Json.obj (exif_base_fields c))],
         device_assertion c, capture_time_assertion c] ++
          (match c.nonce with
           | some nonce => [trust_assertion c.trust_level nonce]
           | none => [])) := by
  refine ⟨fun c c' h => h ▸ rfl, fun c n => rfl, fun c lat lon => ⟨rfl, rfl⟩⟩

/-- Witness for C7: the determinism conjunct discharged at the fixture
context, plus a concrete nonce toggle. -/
theorem c7_manifest_builder_determinism_and_toggles_witness :
    build_manifest_definition test_context =
      build_manifest_definition test_context ∧
    manifest_assertions { test_context with nonce := some "n0" } =
      manifest_assertions { test_context with nonce := none } ++
        [trust_assertion test_context.trust_level "n0"] :=
  ⟨c7_manifest_builder_determinism_and_toggles.1 test_context test_context rfl,
   c7_manifest_builder_determinism_and_toggles.2.1 test_context "n0"⟩

/-- C10: `build_c2pa_placeholder` is total (it returns a plain struct), it
returns the input JPEG bytes unchanged, its manifest is the serialization of
the flat placeholder object whose `sha256` field is the hex SHA-256 of those
bytes, and when the metadata does not parse the `metadata` field is the
empty JSON object. -/
theorem c10_placeholder_never_fails :
    ∀ (sha : List Nat → List Nat) (parse_json : String → Option Json)
      (jpg_bytes : List Nat) (signature_base64 metadata_json : String),
      (build_c2pa_placeholder sha parse_json jpg_bytes signature_base64
        metadata_json).jpg_bytes = jpg_bytes ∧
      (build_c2pa_placeholder sha parse_json jpg_bytes signature_base64
          metadata_json).manifest_json =
        (placeholder_manifest sha parse_json jpg_bytes signature_base64
          metadata_json).serialize ∧
      json_lookup (placeholder_manifest sha parse_json jpg_bytes
          signature_base64 metadata_json) "sha256" =
        some (Json.str (hexEncode (sha jpg_bytes))) ∧
      (parse_json metadata_json = none →
        json_lookup (placeholder_manifest sha parse_json jpg_bytes
            signature_base64 metadata_json) "metadata" =
          some (Json.obj [])) := by
  intro sha parse_json jpg_bytes signature_base64 metadata_json
  refine ⟨rfl, rfl, rfl, ?_⟩
  intro hp
  unfold placeholder_manifest
  rw [hp]
  rfl

/-- Witness for C10: a concrete run with an unparseable metadata string. -/
theorem c10_placeholder_never_fails_witness :
    (build_c2pa_placeholder test_sha (fun _ => none) [1, 2] "sig"
      "not json").jpg_bytes = [1, 2] ∧
    json_lookup (placeholder_manifest test_sha (fun _ => none) [1, 2] "sig"
        "not json") "metadata" = some (Json.obj []) :=
  ⟨(c10_placeholder_never_fails test_sha (fun _ => none) [1, 2] "sig"
      "not json").1,
   (c10_placeholder_never_fails test_sha (fun _ => none) [1, 2] "sig"
      "not json").2.2.2 rfl⟩


/-- Helper: a successful DER length parse consumes between 1 and 3 bytes,
never more than the input holds. -/
theorem parse_der_length_ok_bounds {d : List Nat} {l o : Nat}
    (h : parse_der_length d = Except.ok (l, o)) : 1 ≤ o ∧ o ≤ d.length := by
  cases d with
  | nil => simp [parse_der_length] at h
  | cons b0 rest =>
    by_cases h1 : b0 < 0x80
    · simp [parse_der_length, h1] at h
      obtain ⟨-, rfl⟩ := h
      simp
    · by_cases h2 : b0 = 0x81
      · cases rest with
        | nil => simp [parse_der_length, h1, h2] at h
        | cons b1 t =>
          simp [parse_der_length, h1, h2] at h
          obtain ⟨-, rfl⟩ := h
          simp
      · by_cases h3 : b0 = 0x82
        · cases rest with
          | nil => simp [parse_der_length, h1, h2, h3] at h
          | cons b1 t =>
            cases t with
            | nil => simp [parse_der_length, h1, h2, h3] at h
            | cons b2 t2 =>
              simp [parse_der_length, h1, h2, h3] at h
              obtain ⟨-, rfl⟩ := h
              simp
        · simp [parse_der_length, h1, h2, h3] at h

/-- Helper: an in-bounds `&l[a..]` slice does not panic. -/
theorem slice_from_eq_some {l : List Nat} {a : Nat} (h : a ≤ l.length) :
    slice_from l a = some (l.drop a) := by
  unfold slice_from
  rw [if_pos h]

/-- Helper: an in-bounds `&l[..b]` slice does not panic. -/
theorem slice_to_eq_some {l : List Nat} {b : Nat} (h : b ≤ l.length) :
    slice_to l b = some (l.take b) := by
  unfold slice_to
  rw [if_pos h]

/-- Helper: an in-bounds `&l[a..b]` slice does not panic. -/
theorem slice_range_eq_some {l : List Nat} {a b : Nat} (h1 : a ≤ b)
    (h2 : b ≤ l.length) :
    slice_range l a b = some ((l.drop a).take (b - a)) := by
  unfold slice_range
  rw [if_pos ⟨h1, h2⟩]

/-- C9: the SignatureCodec is total — for every byte sequence (empty,
truncated or adversarial) `der_to_p1363_es256` reaches an `Ok` or `Err`
result and never panics: every slice access (modelled by the `Option` layer,
where `none` is a panic) is in range thanks to the preceding bounds check. -/
theorem c9_codec_total (der : List Nat) :
    (der_to_p1363_es256 der).isSome = true := by
  unfold der_to_p1363_es256
  split
  · rfl
  · rename_i hguard
    push_neg at hguard
    obtain ⟨hlen, hhead⟩ := hguard
    split
    · rename_i heq
      rw [slice_from_eq_some (by omega)] at heq
      exact absurd heq (by simp)
    · rename_i tail1 heq
      rw [slice_from_eq_some (by omega)] at heq
      injection heq with heq
      subst heq
      split
      · rfl
      · rename_i seq_len offset hp
        obtain ⟨ho1, ho2⟩ := parse_der_length_ok_bounds hp
        rw [List.length_drop] at ho2
        split
        · rename_i heq
          rw [slice_from_eq_some (by omega)] at heq
          exact absurd heq (by simp)
        · rename_i seq_body0 heq
          rw [slice_from_eq_some (by omega)] at heq
          injection heq with heq
          subst heq
          split
          · rfl
          · rename_i hseqlen
            push_neg at hseqlen
            split
            · rename_i heq
              rw [slice_to_eq_some hseqlen] at heq
              exact absurd heq (by simp)
            · rename_i seq_body heq
              rw [slice_to_eq_some hseqlen] at heq
              injection heq with heq
              subst heq
              split
              · rfl
              · rename_i hne
                push_neg at hne
                obtain ⟨hne1, hne2⟩ := hne
                have hpos : 0 < ((der.drop (1 + offset)).take seq_len).length := by
                  cases hsb : (der.drop (1 + offset)).take seq_len with
                  | nil => rw [hsb] at hne1; exact absurd rfl hne1
                  | cons a t => simp
                split
                · rename_i heq
                  rw [slice_from_eq_some (by omega)] at heq
                  exact absurd heq (by simp)
                · rename_i tail_r heq
                  rw [slice_from_eq_some (by omega)] at heq
                  injection heq with heq
                  subst heq
                  split
                  · rfl
                  · rename_i r_len r_off hpr
                    obtain ⟨hr1, hr2⟩ := parse_der_length_ok_bounds hpr
                    simp only []
                    split
                    · rfl
                    · rename_i hrlen
                      push_neg at hrlen
                      split
                      · rename_i heq
                        rw [slice_range_eq_some (by omega) hrlen] at heq
                        exact absurd heq (by simp)
                      · rename_i r_bytes heq
                        split
                        · rfl
                        · rename_i hstag
                          push_neg at hstag
                          obtain ⟨hst1, hst2⟩ := hstag
                          split
                          · rename_i heq2
                            rw [slice_from_eq_some (by omega)] at heq2
                            exact absurd heq2 (by simp)
                          · rename_i tail_s heq2
                            rw [slice_from_eq_some (by omega)] at heq2
                            injection heq2 with heq2
                            subst heq2
                            split
                            · rfl
                            · rename_i s_len s_off hps
                              obtain ⟨hs1, hs2⟩ := parse_der_length_ok_bounds hps
                              split
                              · rfl
                              · rename_i hslen
                                push_neg at hslen
                                split
                                · rename_i heq3
                                  rw [slice_range_eq_some (by omega) hslen] at heq3
                                  exact absurd heq3 (by simp)
                                · rename_i s_bytes heq3
                                  split
                                  · rfl
                                  · split
                                    · rfl
                                    · rfl

/-- Helper: a short-form DER length byte parses to itself, consuming one
byte. -/
theorem parse_der_length_short {b0 : Nat} (rest : List Nat) (h : b0 < 0x80) :
    parse_der_length (b0 :: rest) = Except.ok (b0, 1) := by
  simp [parse_der_length, h]

/-- Helper: decoding a well-formed short-form
`SEQUENCE \x7b INTEGER rc, INTEGER sc \x7d` layout reduces to converting the
two content byte strings through `int_to_fixed`. -/
theorem der_decode_shape (rc sc : List Nat)
    (hrc1 : 1 ≤ rc.length) (hrc2 : rc.length ≤ 0x7f)
    (hsc1 : 1 ≤ sc.length) (hsc2 : sc.length ≤ 0x7f)
    (hsum : rc.length + sc.length ≤ 0x7b) :
    der_to_p1363_es256 (mk_der_shape rc sc) =
      some (match int_to_fixed rc 32 with
            | Except.error e => Except.error e
            | Except.ok r =>
              match int_to_fixed sc 32 with
              | Except.error e => Except.error e
              | Except.ok s => Except.ok (r ++ s)) := by
  unfold mk_der_shape der_to_p1363_es256
  rw [if_neg (by
    push_neg
    exact ⟨by simp only [List.length_cons, List.length_append]; omega, rfl⟩)]
  rw [slice_from_eq_some (by
    simp only [List.length_cons, List.length_append]; omega)]
  simp only [List.drop_succ_cons, List.drop_zero]
  rw [parse_der_length_short _ (by omega)]
  simp only []
  rw [slice_from_eq_some (by simp only [List.length_cons, List.length_append]; omega)]
  simp only [List.drop_succ_cons, List.drop_zero]
  rw [if_neg (by simp only [List.length_cons, List.length_append]; omega)]
  rw [slice_to_eq_some (by simp only [List.length_cons, List.length_append]; omega)]
  rw [List.take_of_length_le (by simp only [List.length_cons, List.length_append]; omega)]
  simp only []
  rw [if_neg (by simp)]
  rw [slice_from_eq_some (by simp only [List.length_cons, List.length_append]; omega)]
  simp only [List.drop_succ_cons, List.drop_zero]
  rw [parse_der_length_short _ (by omega)]
  simp only []
  rw [if_neg (by simp only [List.length_cons, List.length_append]; omega)]
  rw [slice_range_eq_some (by omega) (by simp only [List.length_cons, List.length_append]; omega)]
  simp only [List.drop_succ_cons, List.drop_zero]
  rw [show 1 + 1 + rc.length - (1 + 1) = rc.length from by omega]
  rw [List.take_left]
  have hgetD : (2 :: rc.length :: (rc ++ 2 :: sc.length :: sc)).getD (1 + 1 + rc.length) 0 = 2 := by
    rw [show 1 + 1 + rc.length = rc.length + 1 + 1 from by omega]
    simp only [List.getD_cons_succ]
    simp [List.getD_eq_getElem?_getD, List.getElem?_append_right (le_refl rc.length)]
  rw [if_neg (by
    push_neg
    exact ⟨by simp only [List.length_cons, List.length_append]; omega, hgetD⟩)]
  rw [slice_from_eq_some (by simp only [List.length_cons, List.length_append]; omega)]
  rw [show 1 + 1 + rc.length + 1 = rc.length + 1 + 1 + 1 from by omega]
  simp only [List.drop_succ_cons]
  rw [List.drop_append 1]
  simp only [List.drop_succ_cons, List.drop_zero]
  rw [parse_der_length_short _ (by omega)]
  simp only []
  rw [if_neg (by simp only [List.length_cons, List.length_append]; omega)]
  rw [slice_range_eq_some (by omega) (by simp only [List.length_cons, List.length_append]; omega)]
  rw [show rc.length + 1 + 1 + 1 + 1 + sc.length - (rc.length + 1 + 1 + 1 + 1) = sc.length from by omega]
  simp only [List.drop_succ_cons]
  rw [show rc.length + 1 + 1 = rc.length + 2 from by omega, List.drop_append 2]
  simp only [List.drop_succ_cons, List.drop_zero, List.take_length]
  cases hr : int_to_fixed rc 32 with
  | error e => simp
  | ok r =>
    cases hs : int_to_fixed sc 32 with
    | error e => simp
    | ok s => simp


/-- Helper: the minimal big-endian rendering of zero is empty. -/
theorem natToBE_zero : natToBE 0 = [] := by
  unfold natToBE
  rfl

/-- Helper: unfolding equation of `natToBE` on a nonzero number. -/
theorem natToBE_pos {n : Nat} (h : n ≠ 0) :
    natToBE n = natToBE (n / 256) ++ [n % 256] := by
  conv_lhs => rw [natToBE]
  rw [if_neg h]

/-- Helper: the leading byte of a nonzero number's minimal big-endian
rendering is nonzero. -/
theorem natToBE_head_ne_zero {n : Nat} (h : n ≠ 0) :
    ∃ b t, natToBE n = b :: t ∧ b ≠ 0 := by
  induction n using Nat.strong_induction_on with
  | _ n ih =>
    by_cases hlt : n < 256
    · refine ⟨n % 256, [], ?_, ?_⟩
      · rw [natToBE_pos h, Nat.div_eq_of_lt hlt, natToBE_zero]
        rw [Nat.mod_eq_of_lt hlt]
        rfl
      · rw [Nat.mod_eq_of_lt hlt]
        exact h
    · have hq : n / 256 ≠ 0 := by
        intro hc
        have := Nat.div_eq_of_lt (by omega : n < 256)
        omega
      have hqlt : n / 256 < n := Nat.div_lt_self (Nat.pos_of_ne_zero h) (by norm_num)
      obtain ⟨b, t, hbt, hb⟩ := ih (n / 256) hqlt hq
      exact ⟨b, t ++ [n % 256], by rw [natToBE_pos h, hbt]; rfl, hb⟩

/-- Helper: a number below `256 ^ k` needs at most `k` big-endian bytes. -/
theorem natToBE_length_le {k n : Nat} (h : n < 256 ^ k) :
    (natToBE n).length ≤ k := by
  induction k generalizing n with
  | zero =>
    have : n = 0 := by simpa using h
    subst this
    simp [natToBE_zero]
  | succ k ih =>
    by_cases h0 : n = 0
    · subst h0
      simp [natToBE_zero]
    · rw [natToBE_pos h0]
      have hq : n / 256 < 256 ^ k := by
        rw [Nat.div_lt_iff_lt_mul (by norm_num : 0 < 256)]
        calc n < 256 ^ (k + 1) := h
        _ = 256 ^ k * 256 := by ring
      have := ih hq
      simp only [List.length_append, List.length_cons, List.length_nil]
      omega

/-- Helper: the fixed-width rendering of zero is all zero bytes. -/
theorem natToBEFixed_zero_eq (k : Nat) :
    natToBEFixed 0 k = List.replicate k 0 := by
  induction k with
  | zero => rfl
  | succ k ih =>
    show natToBEFixed (0 / 256) k ++ [0 % 256] = List.replicate (k + 1) 0
    rw [Nat.zero_div, ih]
    exact (List.replicate_succ' k 0).symm

/-- Helper: the fixed-width rendering has exactly the requested width. -/
theorem natToBEFixed_length (n k : Nat) : (natToBEFixed n k).length = k := by
  induction k generalizing n with
  | zero => rfl
  | succ k ih =>
    show (natToBEFixed (n / 256) k ++ [n % 256]).length = k + 1
    simp [ih]

/-- Helper: the fixed-width rendering is the minimal rendering left-padded
with zero bytes. -/
theorem natToBEFixed_eq_pad {k n : Nat} (h : n < 256 ^ k) :
    natToBEFixed n k =
      List.replicate (k - (natToBE n).length) 0 ++ natToBE n := by
  induction k generalizing n with
  | zero =>
    have : n = 0 := by simpa using h
    subst this
    simp [natToBE_zero]
    rfl
  | succ k ih =>
    by_cases h0 : n = 0
    · subst h0
      rw [natToBEFixed_zero_eq, natToBE_zero]
      simp
    · show natToBEFixed (n / 256) k ++ [n % 256] = _
      have hq : n / 256 < 256 ^ k := by
        rw [Nat.div_lt_iff_lt_mul (by norm_num : 0 < 256)]
        calc n < 256 ^ (k + 1) := h
        _ = 256 ^ k * 256 := by ring
      rw [ih hq, natToBE_pos h0]
      have hL : (natToBE (n / 256)).length ≤ k := natToBE_length_le hq
      simp only [List.length_append, List.length_cons, List.length_nil]
      rw [List.append_assoc]
      congr 1
      congr 1
      omega

/-- Helper: `minBytes` is never empty, and its head is nonzero for a
nonzero number. -/
theorem minBytes_ne_nil_head {n : Nat} :
    ∃ b t, minBytes n = b :: t ∧ (n ≠ 0 → b ≠ 0) := by
  by_cases h : n = 0
  · subst h
    exact ⟨0, [], rfl, fun hc => absurd rfl hc⟩
  · obtain ⟨b, t, hbt, hb⟩ := natToBE_head_ne_zero h
    refine ⟨b, t, ?_, fun _ => hb⟩
    rw [minBytes, if_neg h, hbt]

/-- Helper: stripping leading zeros skips a leading zero byte. -/
theorem strip_cons_zero (l : List Nat) :
    strip_leading_zeros (0 :: l) = strip_leading_zeros l := by
  unfold strip_leading_zeros
  rw [List.dropWhile_cons]
  simp

/-- Helper: stripping leading zeros stops at a nonzero byte. -/
theorem strip_cons_ne {b : Nat} (hb : b ≠ 0) (l : List Nat) :
    strip_leading_zeros (b :: l) = b :: l := by
  unfold strip_leading_zeros
  rw [List.dropWhile_cons]
  simp [hb]

/-- Helper: stripping the DER INTEGER content bytes recovers exactly the
minimal big-endian rendering (the inserted `0x00` sign byte is removed). -/
theorem strip_der_int_content (n : Nat) :
    strip_leading_zeros (der_int_content n) = minBytes n := by
  by_cases h : n = 0
  · subst h
    rfl
  · obtain ⟨b, t, hbt, hb⟩ := natToBE_head_ne_zero h
    have hmb : minBytes n = b :: t := by rw [minBytes, if_neg h, hbt]
    unfold der_int_content
    rw [hmb]
    by_cases hhi : 0x80 ≤ (b :: t).headD 0
    · rw [if_pos hhi, strip_cons_zero, strip_cons_ne hb]
    · rw [if_neg hhi, strip_cons_ne hb]

/-- Helper: for a value below `2 ^ 256`, `minBytes` has between 1 and 32
bytes. -/
theorem minBytes_length_bounds {n : Nat} (h : n < 2 ^ 256) :
    1 ≤ (minBytes n).length ∧ (minBytes n).length ≤ 32 := by
  by_cases h0 : n = 0
  · subst h0
    exact ⟨by rfl, by norm_num [minBytes]⟩
  · rw [minBytes, if_neg h0]
    constructor
    · obtain ⟨b, t, hbt, -⟩ := natToBE_head_ne_zero h0
      rw [hbt]
      simp
    · exact natToBE_length_le (by
        calc n < 2 ^ 256 := h
        _ = 256 ^ 32 := by norm_num)

/-- Helper: DER INTEGER content of a value below `2 ^ 256` has between 1
and 33 bytes. -/
theorem der_int_content_length_bounds {n : Nat} (h : n < 2 ^ 256) :
    1 ≤ (der_int_content n).length ∧ (der_int_content n).length ≤ 33 := by
  obtain ⟨h1, h2⟩ := minBytes_length_bounds h
  simp only [der_int_content]
  split
  · simp only [List.length_cons]
    omega
  · omega

/-- Helper: `int_to_fixed` on the DER content bytes of a value below
`2 ^ 256` returns exactly its 32-byte big-endian rendering. -/
theorem int_to_fixed_der_content {n : Nat} (h : n < 2 ^ 256) :
    int_to_fixed (der_int_content n) 32 = Except.ok (natToBEFixed n 32) := by
  obtain ⟨h1, h2⟩ := minBytes_length_bounds h
  unfold int_to_fixed
  rw [strip_der_int_content]
  rw [if_neg (by omega)]
  by_cases h0 : n = 0
  · subst h0
    rw [natToBEFixed_zero_eq]
    rfl
  · rw [minBytes, if_neg h0,
      natToBEFixed_eq_pad (by
        calc n < 2 ^ 256 := h
        _ = 256 ^ 32 := by norm_num)]


/-- C3: for every pair of integers `r`, `s` below `2 ^ 256`, DER-encoding
them as `SEQUENCE \x7b INTEGER r, INTEGER s \x7d` (with the leading `0x00`
inserted when the top bit is set) and decoding through the SignatureCodec
yields the 64-byte buffer of `r` and `s` as 32-byte big-endian values
concatenated. -/
theorem c3_der_roundtrip (r s : Nat) (hr : r < 2 ^ 256) (hs : s < 2 ^ 256) :
    der_to_p1363_es256 (spec_der_encode_sig r s) =
      some (Except.ok (natToBEFixed r 32 ++ natToBEFixed s 32)) ∧
    (natToBEFixed r 32 ++ natToBEFixed s 32).length = 64 := by
  obtain ⟨hr1, hr2⟩ := der_int_content_length_bounds hr
  obtain ⟨hs1, hs2⟩ := der_int_content_length_bounds hs
  constructor
  · unfold spec_der_encode_sig
    rw [der_decode_shape _ _ hr1 (by omega) hs1 (by omega) (by omega)]
    rw [int_to_fixed_der_content hr, int_to_fixed_der_content hs]
  · simp [natToBEFixed_length]

/-- C4: the SignatureCodec errors (never produces a 64-byte result) on a
leading byte other than `0x30`, on truncated (`0x81`/`0x82` with too few
length bytes) and unsupported (first length byte `0x80` or above `0x82`)
DER length fields — outer length-field errors propagating to the codec
result — and on an INTEGER longer than 32 bytes after zero-stripping; the
four failure messages are pairwise distinct. -/
theorem c4_codec_rejections :
    (∀ der : List Nat, der.headD 0 ≠ 0x30 →
      der_to_p1363_es256 der = some (Except.error "not a DER SEQUENCE")) ∧
    (parse_der_length [0x81] = Except.error "truncated DER length") ∧
    (∀ rest : List Nat, rest.length ≤ 1 →
      parse_der_length (0x82 :: rest) = Except.error "truncated DER length") ∧
    (∀ (b0 : Nat) (rest : List Nat), 0x80 ≤ b0 → b0 ≠ 0x81 → b0 ≠ 0x82 →
      parse_der_length (b0 :: rest) =
        Except.error "unsupported DER length encoding") ∧
    (∀ (der : List Nat) (e : String), 8 ≤ der.length → der.headD 0 = 0x30 →
      parse_der_length (der.drop 1) = Except.error e →
      der_to_p1363_es256 der = some (Except.error e)) ∧
    (∀ bytes : List Nat, 32 < (strip_leading_zeros bytes).length →
      int_to_fixed bytes 32 =
        Except.error (int_too_large_msg (strip_leading_zeros bytes).length 32)) ∧
    (∀ rc sc : List Nat, 1 ≤ rc.length → rc.length ≤ 0x7f → 1 ≤ sc.length →
      sc.length ≤ 0x7f → rc.length + sc.length ≤ 0x7b →
      32 < (strip_leading_zeros rc).length →
      der_to_p1363_es256 (mk_der_shape rc sc) =
        some (Except.error
          (int_too_large_msg (strip_leading_zeros rc).length 32))) ∧
    ("not a DER SEQUENCE" ≠ "truncated DER length" ∧
     "not a DER SEQUENCE" ≠ "unsupported DER length encoding" ∧
     "not a DER SEQUENCE" ≠ int_too_large_msg 33 32 ∧
     "truncated DER length" ≠ "unsupported DER length encoding" ∧
     "truncated DER length" ≠ int_too_large_msg 33 32 ∧
     "unsupported DER length encoding" ≠ int_too_large_msg 33 32) := by
  refine ⟨?_, rfl, ?_, ?_, ?_, ?_, ?_, by decide⟩
  · intro der h
    unfold der_to_p1363_es256
    rw [if_pos (Or.inr h)]
  · intro rest hlen
    cases rest with
    | nil => rfl
    | cons b1 t =>
      cases t with
      | nil => rfl
      | cons b2 t2 => exact absurd hlen (by simp)
  · intro b0 rest h1 h2 h3
    simp [parse_der_length, show ¬ b0 < 0x80 from by omega, h2, h3]
  · intro der e h8 hhead hp
    unfold der_to_p1363_es256
    rw [if_neg (by push_neg; exact ⟨by omega, hhead⟩)]
    rw [slice_from_eq_some (by omega)]
    simp only []
    rw [hp]
  · intro bytes h
    simp only [int_to_fixed]
    rw [if_pos h]
  · intro rc sc h1 h2 h3 h4 h5 h6
    rw [der_decode_shape rc sc h1 h2 h3 h4 h5]
    rw [show int_to_fixed rc 32 =
        Except.error (int_too_large_msg (strip_leading_zeros rc).length 32)
      from by simp only [int_to_fixed]; rw [if_pos h6]]

/-- Witness for C3: round trip at `r = 1` and `s = 2 ^ 255` (top bit set,
exercising the `0x00` insertion). -/
theorem c3_der_roundtrip_witness :
    (der_to_p1363_es256 (spec_der_encode_sig 1 (2 ^ 255)) =
      some (Except.ok (natToBEFixed 1 32 ++ natToBEFixed (2 ^ 255) 32)) ∧
    (natToBEFixed 1 32 ++ natToBEFixed (2 ^ 255) 32).length = 64) :=
  c3_der_roundtrip 1 (2 ^ 255) (by decide) (by decide)

/-- Witness for C4: concrete rejected inputs for each failure class. -/
theorem c4_codec_rejections_witness :
    der_to_p1363_es256 [0x31, 0, 0, 0, 0, 0, 0, 0] =
      some (Except.error "not a DER SEQUENCE") ∧
    parse_der_length [0x82] = Except.error "truncated DER length" ∧
    parse_der_length [0x83, 1] =
      Except.error "unsupported DER length encoding" ∧
    der_to_p1363_es256 [0x30, 0x83, 0, 0, 0, 0, 0, 0] =
      some (Except.error "unsupported DER length encoding") ∧
    int_to_fixed (List.replicate 33 1) 32 =
      Except.error (int_too_large_msg 33 32) ∧
    der_to_p1363_es256 (mk_der_shape (List.replicate 33 1) [1]) =
      some (Except.error (int_too_large_msg 33 32)) :=
  ⟨c4_codec_rejections.1 _ (by decide),
   c4_codec_rejections.2.2.1 [] (by decide),
   c4_codec_rejections.2.2.2.1 0x83 [1] (by decide) (by decide) (by decide),
   c4_codec_rejections.2.2.2.2.1 [0x30, 0x83, 0, 0, 0, 0, 0, 0]
     "unsupported DER length encoding" (by decide) rfl rfl,
   c4_codec_rejections.2.2.2.2.2.1 (List.replicate 33 1) (by decide),
   c4_codec_rejections.2.2.2.2.2.2.1 (List.replicate 33 1) [1] (by decide)
     (by decide) (by decide) (by decide) (by decide) (by decide)⟩
